import Mathlib

/-!
# OrganLink backend — matching engine and allocation state machine, shallowly embedded

Shallow embedding of the matching/ranking code (`services/aiMatching.ts`,
`services/blockchain.ts`) and the allocation-request route handlers of the
hospital matching router (`/send-request`, `/respond`,
`/requests/:request_id/respond`, `/complete-transplant`, `/enhanced-matches`)
over an explicit relational state (`DB`).

Conventions of the embedding:
* JS strings are Lean `String`s; nullable columns are `Option`s; JS falsiness
  of a string is the test `= ""` (applied only where the value is a string).
* Timestamps are `Int` milliseconds since the epoch; `new Date(a) - new Date(b)`
  is `a - b`, and `Math.floor(x / 86400000)` is `Int.fdiv x 86400000`.
* The weighted match score of `aiMatching.ts` (weights 0.4/0.3/0.2/0.1 over
  integer sub-scores) is held scaled by 10 (`match_score10`), which is exact:
  the source value always has a single decimal digit, so
  `Math.round(s * 100) / 100 = s`. The enhanced score of `blockchain.ts` is
  `Math.round` of a two-decimal value and is held scaled by 1 after rounding
  (`jsRound100` of the sum scaled by 100).
* SQL `UPDATE ... WHERE` is a `List.map` touching every matching row;
  `SELECT ... LIMIT`-less single-row reads are `List.find?`; `INSERT` is an
  append; inner `JOIN`s are existence checks on the joined table.
-/

/-- JS-style whitespace test used by `String.prototype.trim`. -/
def isJsSpace (c : Char) : Bool :=
  c == ' ' || c == '\t' || c == '\n' || c == '\r'

/-- `String.prototype.trim`: strip whitespace from both ends. -/
def jsTrim (s : String) : String :=
  ⟨((s.data.dropWhile isJsSpace).reverse.dropWhile isJsSpace).reverse⟩

/-- `String.prototype.toLowerCase` (ASCII case mapping suffices here). -/
def jsLower (s : String) : String :=
  ⟨s.data.map Char.toLower⟩

/-- Containment of `needle` in `hay` over lists (JS `String.prototype.includes`). -/
def listContainsRun [BEq α] (needle : List α) : List α → Bool
  | [] => needle.isEmpty
  | a :: hay => needle.isPrefixOf (a :: hay) || listContainsRun needle hay

/-- JS `hay.includes(needle)`. -/
def jsIncludes (hay needle : String) : Bool :=
  listContainsRun needle.data hay.data

/-- JS `s.replace(/s$/, "")`: drop one trailing `'s'` if present. -/
def stripTrailingS (s : String) : String :=
  match s.data.reverse with
  | 's' :: rest => ⟨rest.reverse⟩
  | _ => s

/-- JS `o || dflt` for an optional string column: `none` and `""` fall back. -/
def jsOr (o : Option String) (dflt : String) : String :=
  match o with
  | some s => if s == "" then dflt else s
  | none => dflt

/-- JS `Math.round` of `s / 10` for a natural `s` (round half away from zero). -/
def jsRound10 (s : Nat) : Nat := (s + 5) / 10

/-- JS `Math.round` of `s / 100` for a natural `s`. -/
def jsRound100 (s : Nat) : Nat := (s + 50) / 100

/-- Descending insertion into a list sorted descending by `key`
(stable: an element is placed before the first strictly-smaller-or-equal key it
dominates, matching a stable descending comparator sort). -/
def insertDescBy (key : α → Int) (x : α) : List α → List α
  | [] => [x]
  | y :: ys => if key y ≤ key x then x :: y :: ys else y :: insertDescBy key x ys

/-- Stable descending sort by an integer key
(JS `arr.sort((a, b) => key(b) - key(a))`). -/
def sortDescBy (key : α → Int) : List α → List α
  | [] => []
  | x :: xs => insertDescBy key x (sortDescBy key xs)

theorem length_insertDescBy (key : α → Int) (x : α) (l : List α) :
    (insertDescBy key x l).length = l.length + 1 := by
  induction l with
  | nil => rfl
  | cons y ys ih =>
    simp only [insertDescBy]
    split
    · simp
    · simp [ih]

theorem length_sortDescBy (key : α → Int) (l : List α) :
    (sortDescBy key l).length = l.length := by
  induction l with
  | nil => rfl
  | cons x xs ih => simp [sortDescBy, length_insertDescBy, ih]

theorem mem_of_mem_insertDescBy {key : α → Int} {x a : α} {l : List α}
    (h : a ∈ insertDescBy key x l) : a = x ∨ a ∈ l := by
  induction l with
  | nil =>
    simp only [insertDescBy, List.mem_singleton] at h
    exact Or.inl h
  | cons y ys ih =>
    simp only [insertDescBy] at h
    split at h
    · simp only [List.mem_cons] at h
      rcases h with h | h | h
      · exact Or.inl h
      · exact Or.inr (by simp [h])
      · exact Or.inr (by simp [h])
    · simp only [List.mem_cons] at h
      rcases h with h | h
      · exact Or.inr (by simp [h])
      · rcases ih h with h' | h'
        · exact Or.inl h'
        · exact Or.inr (by simp [h'])

theorem mem_of_mem_sortDescBy {key : α → Int} {a : α} {l : List α}
    (h : a ∈ sortDescBy key l) : a ∈ l := by
  induction l generalizing a with
  | nil => simp only [sortDescBy] at h; exact h
  | cons x xs ih =>
    simp only [sortDescBy] at h
    rcases mem_of_mem_insertDescBy h with h' | h'
    · simp [h']
    · simp [ih h']

/-- JS `arr.filter((p, i, a) => a.indexOf(p) === i)`: keep first occurrences. -/
def dedupKeepFirstAux (seen : List String) : List String → List String
  | [] => []
  | x :: xs =>
    if seen.contains x then dedupKeepFirstAux seen xs
    else x :: dedupKeepFirstAux (x :: seen) xs

/-- Remove duplicates keeping the first occurrence of each string. -/
def dedupKeepFirst (l : List String) : List String := dedupKeepFirstAux [] l

/-- A location row as selected from the `hospitals` table (nullable columns). -/
structure Loc where
  city : Option String
  state : Option String
  country : Option String
deriving Repr, DecidableEq

/-- Result of the city/state proximity heuristic. -/
structure DistanceResult where
  score : Nat
  category : String
  explanation : String
deriving Repr, DecidableEq

/-! ## Data model: rows of the relational store -/

/-- A row of the `hospitals` table (the columns the matching code reads). -/
structure Hospital where
  hospital_id : String
  name : String
  city : Option String
  state : Option String
  country : Option String
deriving Repr, DecidableEq

/-- A row of the `patients` table (recipients). -/
structure Patient where
  patient_id : String
  hospital_id : String
  full_name : String
  organ_needed : String
  blood_type : String
  urgency_level : String
  age : Int
  gender : String
  registration_date : Int
  status : Option String
  matched_donor_id : Option String
  matched_hospital_id : Option String
  status_updated_at : Option Int
  completed_at : Option Int
deriving Repr, DecidableEq

/-- A row of the `donors` table. -/
structure Donor where
  donor_id : String
  hospital_id : String
  full_name : String
  blood_type : String
  organs_to_donate : List String
  age : Int
  gender : String
  is_active : Bool
  registration_date : Int
  created_at : Int
  status : Option String
  matched_patient_id : Option String
  matched_hospital_id : Option String
  status_updated_at : Option Int
  donated_at : Option Int
deriving Repr, DecidableEq

/-- A row of the `organ_requests` table (allocation requests). -/
structure OrganRequest where
  request_id : String
  from_hospital_id : String
  to_hospital_id : String
  patient_id : String
  donor_id : String
  status : String
  notes : Option String
  response_notes : Option String
  created_at : Int
  updated_at : Int
deriving Repr, DecidableEq

/-- A row of the `notifications` table. -/
structure Notification where
  notification_id : String
  hospital_id : String
  type : String
  title : String
  message : String
  related_id : String
  is_read : Bool
deriving Repr, DecidableEq

/-- A row of the `policies` table (the columns the two matching paths read). -/
structure Policy where
  policy_id : String
  title : String
  description : Option String
  policy_content : Option String
  status : String
  votes_for : Int
  votes_against : Int
  total_votes : Int
  is_withdrawn : Option Bool
  is_suspended : Option Bool
  paused_for_matching : Option Bool
  created_at : Int
deriving Repr, DecidableEq

/-- The shared relational store. -/
structure DB where
  hospitals : List Hospital
  patients : List Patient
  donors : List Donor
  requests : List OrganRequest
  notifications : List Notification
  policies : List Policy
deriving Repr, DecidableEq

/-! ## `services/aiMatching.ts` — class `AIMatchingService` -/

namespace AIMatchingService

/-- The blood type compatibility matrix of `AIMatchingService`: for a donor
blood type, the list of recipient blood types that donor may give to
(an unknown key yields `[]`, the `|| []` fallback). -/
def bloodCompatibility (bt : String) : List String :=
  if bt == "A+" then ["A+", "AB+"]
  else if bt == "A-" then ["A+", "A-", "AB+", "AB-"]
  else if bt == "B+" then ["B+", "AB+"]
  else if bt == "B-" then ["B+", "B-", "AB+", "AB-"]
  else if bt == "AB+" then ["AB+"]
  else if bt == "AB-" then ["AB+", "AB-"]
  else if bt == "O+" then ["A+", "B+", "AB+", "O+"]
  else if bt == "O-" then ["A+", "A-", "B+", "B-", "AB+", "AB-", "O+", "O-"]
  else []

/-- Urgency level scoring (`urgencyScores`, with the `|| 0` lookup fallback). -/
def urgencyScores (level : String) : Nat :=
  if level == "Critical" then 100
  else if level == "High" then 75
  else if level == "Medium" then 50
  else if level == "Low" then 25
  else 0

/-- `calculateCompatibilityScore`: 100 for identical types, 80 when the donor
type's compatibility row contains the patient type, otherwise 0. -/
def calculateCompatibilityScore (patientBloodType donorBloodType : String) : Nat :=
  if patientBloodType == donorBloodType then 100
  else if (bloodCompatibility donorBloodType).contains patientBloodType then 80
  else 0

/-- `calculateDistanceScore`: four-tier city/state/country proximity heuristic. -/
def calculateDistanceScore (patientLocation donorLocation : Loc) : DistanceResult :=
  let pCity := jsTrim (jsLower (patientLocation.city.getD ""))
  let pState := jsTrim (jsLower (patientLocation.state.getD ""))
  let pCountry := jsTrim (jsLower (patientLocation.country.getD ""))
  let dCity := jsTrim (jsLower (donorLocation.city.getD ""))
  let dState := jsTrim (jsLower (donorLocation.state.getD ""))
  let dCountry := jsTrim (jsLower (donorLocation.country.getD ""))
  if pCity != "" && dCity != "" && pCity == dCity then
    { score := 100, category := "Local"
      explanation := "Donor is in the same city (" ++ donorLocation.city.getD "" ++
        ") - Fastest transport time" }
  else if pState != "" && dState != "" && pState == dState then
    { score := 75, category := "Regional"
      explanation := "Donor is in same state (" ++ donorLocation.state.getD "" ++
        ") - Within state transport" }
  else if pCountry != "" && dCountry != "" && pCountry == dCountry then
    { score := 50, category := "National"
      explanation := "Donor is in different state (" ++ jsOr donorLocation.state "Unknown" ++
        ") - Interstate transport needed" }
  else
    { score := 30, category := "International"
      explanation := "Donor is in different country (" ++ jsOr donorLocation.country "Unknown" ++
        ") - International coordination required" }

/-- The tier table of `AIMatchingService.calculateTimeScore` over the computed
day difference: newer donor registrations score higher. -/
def timeTier (daysDiff : Int) : Nat :=
  if daysDiff ≤ 7 then 100
  else if daysDiff ≤ 30 then 80
  else if daysDiff ≤ 90 then 60
  else if daysDiff ≤ 180 then 40
  else 20

/-- `AIMatchingService.calculateTimeScore`: day difference between `now` and
the registration date, floored, then the tier table. -/
def calculateTimeScore (nowMs registrationDateMs : Int) : Nat :=
  timeTier (Int.fdiv (nowMs - registrationDateMs) 86400000)

end AIMatchingService

namespace AIMatchingService

/-- The per-donor match record built by `findMatches` (`DonorMatch`).
`match_score10` holds the weighted score scaled by 10 (see file header). -/
structure DonorMatch where
  donor_id : String
  donor_name : String
  blood_type : String
  organs_available : List String
  hospital_id : String
  hospital_name : String
  city : Option String
  state : Option String
  match_score10 : Nat
  distance_score : Nat
  compatibility_score : Nat
  urgency_bonus : Nat
  registration_time : Int
  policy_applied : Bool
  policy_name : Option String
  blockchain_verified : Bool
  explanation : String
deriving Repr, DecidableEq

/-- The result record of `findMatches` (`MatchingResult`); the policy fields are
absent (`none`) on the empty-compatibility early return. -/
structure MatchingResult where
  patient_id : String
  «matches» : List DonorMatch
  total_matches : Nat
  best_match : Option DonorMatch
  blockchain_policies_applied : Option Bool
  applied_policies : Option (List String)
deriving Repr, DecidableEq

/-- The matching criteria passed to `findMatches` (`MatchingCriteria`). -/
structure MatchingCriteria where
  organ_type : String
  blood_type : String
  urgency_level : String
  hospital_id : String
  patient_id : String
deriving Repr, DecidableEq

/-- The `policies` SELECT of `applyBlockchainPolicies`: `voting` status with a
strict yes-majority, not withdrawn, not suspended, newest first.
`votes_for / total_votes > 0.5` over positive integers is `2 * votes_for >
total_votes`. -/
def approvedPolicies (db : DB) : List Policy :=
  sortDescBy (fun p => p.created_at) (db.policies.filter (fun p =>
    p.status == "voting" && p.total_votes > 0 &&
    2 * p.votes_for > p.total_votes &&
    (p.is_withdrawn == none || p.is_withdrawn == some false) &&
    (p.is_suspended == none || p.is_suspended == some false)))

/-- One policy iteration of `applyBlockchainPolicies` over the match list:
kidney-transport distance bonuses, pediatric bonus, urgent-case bonus
(all additive on the scaled score, capped at 100, i.e. 1000 scaled). -/
def applyOnePolicy (db : DB) (patient : Patient) (policy : Policy)
    (ms0 : List DonorMatch) : List DonorMatch :=
  let policyTitle := jsLower policy.title
  let policyContent := jsLower (policy.policy_content.getD "")
  let afterKidney :=
    if ((jsIncludes policyTitle "kidney" && jsIncludes policyTitle "transport") ||
        (jsIncludes policyTitle "kidney" && jsIncludes policyTitle "priority") ||
        jsIncludes policyContent "geographically closer") &&
        (jsLower patient.organ_needed == "kidney") then
      let patientHospital := db.hospitals.find? (fun h => h.hospital_id == patient.hospital_id)
      let patientCity := (patientHospital.bind (fun h => h.city)).getD ""
      let patientState := patientHospital.bind (fun h => h.state)
      ms0.map (fun m =>
        let sameCity := m.city.getD "" != "" && patientCity != "" &&
          jsLower (m.city.getD "") == jsLower patientCity
        let sameState := m.state.getD "" != "" && (patientState.getD "" != "") &&
          jsLower (m.state.getD "") == jsLower (patientState.getD "")
        let distanceBonus : Nat := if sameCity then 15 else if sameState then 8 else 0
        let explanation :=
          if sameCity then
            "Same city priority (" ++ m.city.getD "" ++ ") - " ++ policy.title ++ " (+15 pts)"
          else if sameState then
            "Same state priority (" ++ m.state.getD "" ++ ") - " ++ policy.title ++ " (+8 pts)"
          else
            "Distance consideration - " ++ policy.title ++ " (no bonus)"
        let m := if distanceBonus > 0 then
            { m with match_score10 := min 1000 (m.match_score10 + distanceBonus * 10)
                     policy_applied := true
                     policy_name := some policy.title
                     blockchain_verified := true }
          else m
        { m with explanation :=
            m.explanation ++ (if m.explanation != "" then "; " else "") ++ explanation })
    else ms0
  let afterPediatric :=
    if jsIncludes policyTitle "pediatric" && patient.age < 18 then
      afterKidney.map (fun m =>
        { m with match_score10 := min 1000 (m.match_score10 + 50)
                 policy_applied := true
                 policy_name := some policy.title
                 explanation := m.explanation ++ "; " ++ policy.title ++ " (+5 pts)" })
    else afterKidney
  if (jsIncludes policyTitle "urgent" || jsIncludes policyTitle "emergency" ||
      jsIncludes policyTitle "critical") && patient.urgency_level == "Critical" then
    afterPediatric.map (fun m =>
      { m with match_score10 := min 1000 (m.match_score10 + 80)
               policy_applied := true
               policy_name := some policy.title
               explanation := m.explanation ++ "; " ++ policy.title ++ " (+8 pts)" })
  else afterPediatric

/-- `applyBlockchainPolicies`: fold the approved policies over the match list
in creation-descending order, then re-sort descending by score. -/
def applyBlockchainPolicies (db : DB) (ms0 : List DonorMatch)
    (patient : Patient) : List DonorMatch :=
  sortDescBy (fun m => (m.match_score10 : Int))
    ((approvedPolicies db).foldl (fun ms p => applyOnePolicy db patient p ms) ms0)

/-- The map body of `findMatches`: score one joined donor row. The stored
`explanation` is the distance explanation (the longer concatenation built in
the source is a local never written to the returned record). -/
def mkDonorMatch (nowMs : Int) (c : MatchingCriteria) (patientLoc : Loc)
    (d : Donor) (h : Hospital) : DonorMatch :=
  let compatibilityScore := calculateCompatibilityScore c.blood_type d.blood_type
  let urgencyBonus := urgencyScores c.urgency_level
  let distanceResult := calculateDistanceScore patientLoc ⟨h.city, h.state, h.country⟩
  let timeScore := calculateTimeScore nowMs d.registration_date
  { donor_id := d.donor_id
    donor_name := d.full_name
    blood_type := d.blood_type
    organs_available := d.organs_to_donate
    hospital_id := d.hospital_id
    hospital_name := h.name
    city := h.city
    state := h.state
    match_score10 := compatibilityScore * 4 + urgencyBonus * 3 +
      distanceResult.score * 2 + timeScore
    distance_score := distanceResult.score
    compatibility_score := compatibilityScore
    urgency_bonus := urgencyBonus
    registration_time := d.registration_date
    policy_applied := false
    policy_name := none
    blockchain_verified := false
    explanation := distanceResult.explanation }

/-- `AIMatchingService.findMatches`: donor query keyed by
`bloodCompatibility[criteria.blood_type]` (exclude own hospital, active and
available donors offering the organ), score, sort, then apply approved
policies when the patient row exists. -/
def findMatches (db : DB) (nowMs : Int) (c : MatchingCriteria) : MatchingResult :=
  let compatibleBloodTypes := bloodCompatibility c.blood_type
  if compatibleBloodTypes.isEmpty then
    { patient_id := c.patient_id, «matches» := [], total_matches := 0
      best_match := none, blockchain_policies_applied := none, applied_policies := none }
  else
    let patientHospital := db.hospitals.find? (fun h => h.hospital_id == c.hospital_id)
    let patientLoc : Loc := match patientHospital with
      | some h => ⟨h.city, h.state, h.country⟩
      | none => ⟨none, none, none⟩
    let donorRows := sortDescBy (fun d => d.created_at) (db.donors.filter (fun d =>
      compatibleBloodTypes.contains d.blood_type && d.is_active &&
      d.organs_to_donate.contains c.organ_type &&
      !(d.hospital_id == c.hospital_id) &&
      (d.status == none || d.status == some "Available")))
    let joined := donorRows.filterMap (fun d =>
      (db.hospitals.find? (fun h => h.hospital_id == d.hospital_id)).map (fun h => (d, h)))
    let scored := sortDescBy (fun m => (m.match_score10 : Int))
      (joined.map (fun dh => mkDonorMatch nowMs c patientLoc dh.1 dh.2))
    let finalMatches := match db.patients.find? (fun p => p.patient_id == c.patient_id) with
      | some patient => applyBlockchainPolicies db scored patient
      | none => scored
    let appliedPolicies := dedupKeepFirst
      ((finalMatches.filter (fun m => m.policy_applied && m.policy_name.isSome)).filterMap
        (fun m => m.policy_name))
    { patient_id := c.patient_id
      «matches» := finalMatches
      total_matches := finalMatches.length
      best_match := finalMatches.head?
      blockchain_policies_applied := some (finalMatches.any (fun m => m.policy_applied))
      applied_policies := some appliedPolicies }

end AIMatchingService

/-! ## `services/blockchain.ts` — enhanced matching -/

namespace Blockchain

/-- `calculateMedicalRiskScore`: age-gap, gender and organ-specific risk
adjustments from a neutral 100 baseline, clamped to `[0, 100]`. -/
def calculateMedicalRiskScore (patient : Patient) (donor : Donor) : Nat :=
  let ageDiff : Int := (patient.age - donor.age).natAbs
  let r : Int := 100
  let r := if ageDiff > 20 then r - 15
    else if ageDiff > 10 then r - 8
    else if ageDiff ≤ 5 then r + 5
    else r
  let r := if patient.gender == donor.gender &&
      (["Heart", "Liver"].contains patient.organ_needed) then r + 5 else r
  let r := if patient.age < 18 then
      (let r := r + 10; if donor.age < 30 then r + 5 else r)
    else if patient.age > 65 then
      (let r := if donor.age > 65 then r - 10 else r
       if donor.age < 50 then r + 5 else r)
    else r
  let organ := jsLower patient.organ_needed
  let r := if organ == "heart" then
      (let r := if ageDiff > 15 then r - 20 else r
       if patient.urgency_level == "Critical" then r + 15 else r)
    else if organ == "kidney" then (if ageDiff > 25 then r - 10 else r)
    else if organ == "liver" then (if ageDiff > 20 then r - 15 else r)
    else if organ == "lung" || organ == "lungs" then (if ageDiff > 10 then r - 25 else r)
    else r
  (max 0 (min 100 r)).toNat

/-- `calculateBloodCompatibility` of `blockchain.ts`: the patient-keyed score
matrix (`compatibility[patientBlood]?.[donorBlood] || 0`), transcribed row by
row from the source. -/
def calculateBloodCompatibility (patientBlood donorBlood : String) : Nat :=
  if patientBlood == "O-" then
    if donorBlood == "O-" then 100 else if donorBlood == "O+" then 95
    else if donorBlood == "A-" then 90 else if donorBlood == "A+" then 85
    else if donorBlood == "B-" then 90 else if donorBlood == "B+" then 85
    else if donorBlood == "AB-" then 85 else if donorBlood == "AB+" then 80 else 0
  else if patientBlood == "O+" then
    if donorBlood == "O-" then 85 else if donorBlood == "O+" then 100
    else if donorBlood == "A-" then 0 else if donorBlood == "A+" then 90
    else if donorBlood == "B-" then 0 else if donorBlood == "B+" then 90
    else if donorBlood == "AB-" then 0 else if donorBlood == "AB+" then 85 else 0
  else if patientBlood == "A-" then
    if donorBlood == "O-" then 95 else if donorBlood == "O+" then 85
    else if donorBlood == "A-" then 100 else if donorBlood == "A+" then 95
    else if donorBlood == "B-" then 0 else if donorBlood == "B+" then 0
    else if donorBlood == "AB-" then 85 else if donorBlood == "AB+" then 80 else 0
  else if patientBlood == "A+" then
    if donorBlood == "O-" then 85 else if donorBlood == "O+" then 90
    else if donorBlood == "A-" then 85 else if donorBlood == "A+" then 100
    else if donorBlood == "B-" then 0 else if donorBlood == "B+" then 0
    else if donorBlood == "AB-" then 0 else if donorBlood == "AB+" then 85 else 0
  else if patientBlood == "B-" then
    if donorBlood == "O-" then 95 else if donorBlood == "O+" then 85
    else if donorBlood == "A-" then 0 else if donorBlood == "A+" then 0
    else if donorBlood == "B-" then 100 else if donorBlood == "B+" then 95
    else if donorBlood == "AB-" then 85 else if donorBlood == "AB+" then 80 else 0
  else if patientBlood == "B+" then
    if donorBlood == "O-" then 85 else if donorBlood == "O+" then 90
    else if donorBlood == "A-" then 0 else if donorBlood == "A+" then 0
    else if donorBlood == "B-" then 85 else if donorBlood == "B+" then 100
    else if donorBlood == "AB-" then 0 else if donorBlood == "AB+" then 85 else 0
  else if patientBlood == "AB-" then
    if donorBlood == "O-" then 90 else if donorBlood == "O+" then 80
    else if donorBlood == "A-" then 90 else if donorBlood == "A+" then 80
    else if donorBlood == "B-" then 90 else if donorBlood == "B+" then 80
    else if donorBlood == "AB-" then 100 else if donorBlood == "AB+" then 95 else 0
  else if patientBlood == "AB+" then
    if donorBlood == "O-" then 85 else if donorBlood == "O+" then 85
    else if donorBlood == "A-" then 85 else if donorBlood == "A+" then 85
    else if donorBlood == "B-" then 85 else if donorBlood == "B+" then 85
    else if donorBlood == "AB-" then 90 else if donorBlood == "AB+" then 100 else 0
  else 0

/-- `calculateUrgencyScore`: urgency base plus age and organ adjustments,
capped at 100. -/
def calculateUrgencyScore (urgencyLevel : String) (age : Int) (organNeeded : String) : Nat :=
  let u := jsLower urgencyLevel
  let base : Nat :=
    if u == "critical" then 100
    else if u == "high" then 75
    else if u == "medium" then 50
    else if u == "low" then 25
    else 25
  let base := if age < 18 then base + 15 else if age > 70 then base + 10 else base
  let organ := jsLower organNeeded
  let base :=
    if organ == "heart" then base + 20
    else if organ == "liver" then base + 15
    else if organ == "lung" || organ == "lungs" then base + 10
    else if organ == "kidney" then base + 5
    else base
  min 100 base

/-- `calculateDistanceScoreByCityState`: the same four-tier heuristic as
`aiMatching.ts` with shorter explanation strings. -/
def calculateDistanceScoreByCityState (patientLocation donorLocation : Loc) : DistanceResult :=
  let pCity := jsTrim (jsLower (patientLocation.city.getD ""))
  let pState := jsTrim (jsLower (patientLocation.state.getD ""))
  let pCountry := jsTrim (jsLower (patientLocation.country.getD ""))
  let dCity := jsTrim (jsLower (donorLocation.city.getD ""))
  let dState := jsTrim (jsLower (donorLocation.state.getD ""))
  let dCountry := jsTrim (jsLower (donorLocation.country.getD ""))
  if pCity != "" && dCity != "" && pCity == dCity then
    { score := 100, category := "Local"
      explanation := "Same city (" ++ donorLocation.city.getD "" ++ ") - Fastest transport" }
  else if pState != "" && dState != "" && pState == dState then
    { score := 75, category := "Regional"
      explanation := "Same state (" ++ donorLocation.state.getD "" ++ ") - Within state" }
  else if pCountry != "" && dCountry != "" && pCountry == dCountry then
    { score := 50, category := "National"
      explanation := "Different state (" ++ jsOr donorLocation.state "Unknown" ++
        ") - Interstate transport" }
  else
    { score := 30, category := "International"
      explanation := "Different country (" ++ jsOr donorLocation.country "Unknown" ++
        ") - International" }

/-- The tier table of `blockchain.ts`'s `calculateTimeScore` over the day
difference: longer waiting time scores higher (40 under a week, 100 over a
year). -/
def timeTier (daysSinceRegistration : Int) : Nat :=
  if daysSinceRegistration > 365 then 100
  else if daysSinceRegistration > 180 then 90
  else if daysSinceRegistration > 90 then 80
  else if daysSinceRegistration > 30 then 70
  else if daysSinceRegistration > 14 then 60
  else if daysSinceRegistration > 7 then 50
  else 40

/-- `calculateTimeScore` of `blockchain.ts`: floored day difference between
`now` and the patient's registration date, then the tier table. -/
def calculateTimeScore (nowMs registrationDateMs : Int) : Nat :=
  timeTier (Int.fdiv (nowMs - registrationDateMs) 86400000)

/-- The per-donor record of `findEnhancedMatches` (`MatchScore`); all scores
are the `Math.round`ed integers of the source. -/
structure MatchScore where
  donor_id : String
  donor_name : String
  blood_type : String
  organs_available : List String
  hospital_id : String
  hospital_name : String
  match_score : Nat
  compatibility_score : Nat
  urgency_bonus : Nat
  distance_score : Nat
  age_compatibility : Nat
  medical_risk_score : Nat
  time_score : Nat
  explanation : String
deriving Repr, DecidableEq

/-- The patient-status condition of the enhanced matching queries
(`status IS NULL OR status IN ('Waiting', 'In Progress', 'Matched')`). -/
def statusActiveOk (st : Option String) : Bool :=
  st == none || st == some "Waiting" || st == some "In Progress" || st == some "Matched"

/-- Organ-name normalization of `findEnhancedMatches`:
`s.trim().toLowerCase().replace(/s$/, "")`. -/
def normalizeOrganName (s : String) : String :=
  stripTrailingS (jsLower (jsTrim s))

/-- The map body of `findEnhancedMatches`: score one joined donor row and build
its explanation string. -/
def mkMatchScore (nowMs : Int) (p : Patient) (ph : Hospital) (d : Donor)
    (dh : Hospital) : MatchScore :=
  let bloodCompatibility := calculateBloodCompatibility p.blood_type d.blood_type
  let urgencyScore := calculateUrgencyScore p.urgency_level p.age p.organ_needed
  let distanceResult := calculateDistanceScoreByCityState
    ⟨ph.city, ph.state, ph.country⟩ ⟨dh.city, dh.state, dh.country⟩
  let distanceScore := distanceResult.score
  let timeScore := calculateTimeScore nowMs p.registration_date
  let medicalRiskScore := calculateMedicalRiskScore p d
  let weightedScore100 := bloodCompatibility * 35 + urgencyScore * 25 +
    distanceScore * 15 + timeScore * 10 + medicalRiskScore * 15
  let explanation :=
    "Blood: " ++ Nat.repr bloodCompatibility ++ "% | Distance: " ++
      distanceResult.category ++ " (" ++ Nat.repr distanceScore ++ "%)" ++
    (if urgencyScore > 80 then " | High urgency (" ++ p.urgency_level ++ ")" else "") ++
    (if timeScore > 70 then " | Extended wait time" else "") ++
    (if medicalRiskScore > 85 then " | Excellent medical compatibility" else "") ++
    " - " ++ distanceResult.explanation
  { donor_id := d.donor_id
    donor_name := d.full_name
    blood_type := d.blood_type
    organs_available := d.organs_to_donate
    hospital_id := d.hospital_id
    hospital_name := dh.name
    match_score := jsRound100 weightedScore100
    compatibility_score := bloodCompatibility
    urgency_bonus := urgencyScore
    distance_score := distanceScore
    age_compatibility := medicalRiskScore
    medical_risk_score := medicalRiskScore
    time_score := timeScore
    explanation := explanation }

/-- `findEnhancedMatches`: active patient (joined to its hospital), all active
available donors (joined to their hospitals), organ-name filter, scoring,
viability filter (`match_score > 40`), descending sort, top 10.
`none` models the thrown "Patient not found". -/
def findEnhancedMatches (db : DB) (nowMs : Int) (patientId : String) :
    Option (List MatchScore) :=
  match db.patients.find? (fun p => p.patient_id == patientId && statusActiveOk p.status) with
  | none => none
  | some p =>
    match db.hospitals.find? (fun h => h.hospital_id == p.hospital_id) with
    | none => none
    | some ph =>
      let donorsAll := db.donors.filter (fun d =>
        d.is_active && (d.status == none || d.status == some "Available"))
      let joined := donorsAll.filterMap (fun d =>
        (db.hospitals.find? (fun h => h.hospital_id == d.hospital_id)).map (fun h => (d, h)))
      let neededOrgan := jsLower p.organ_needed
      let donors := joined.filter (fun dh =>
        dh.1.organs_to_donate.any (fun o => normalizeOrganName o == normalizeOrganName neededOrgan))
      let scored := donors.map (fun dh => mkMatchScore nowMs p ph dh.1 dh.2)
      some ((sortDescBy (fun m => (m.match_score : Int))
        (scored.filter (fun m => decide (40 < m.match_score)))).take 10)

end Blockchain

/-! ## The hospital matching router — allocation request state machine -/

namespace Matching

/-- Response of `POST /send-request`. -/
inductive SendResult where
  | badRequest (error : String)
  | notFound (error : String)
  | ok (request_id : String) (internal_match auto_accepted : Bool) (patient_status : String)
deriving Repr, DecidableEq

/-- Response of the two respond routes; `ok` carries the request status written
(`accepted` or `rejected`), which determines the success message. -/
inductive RespondResult where
  | badRequest (error : String)
  | notFound (error : String)
  | ok (status : String)
deriving Repr, DecidableEq

/-- Response of `POST /complete-transplant`. -/
inductive CompleteResult where
  | badRequest (error : String)
  | notFound (error : String)
  | ok
deriving Repr, DecidableEq

/-- JS `notes ? ' Reason: ' + notes : ''` for the decline message. -/
def reasonSuffix (notes : Option String) : String :=
  match notes with
  | some n => if n == "" then "" else " Reason: " ++ n
  | none => ""

/-- `POST /send-request` (create an allocation request). `requestId` and
`notificationId` stand for the generated fresh identifiers. -/
def sendRequest (db : DB) (nowMs : Int) (fromHospitalId : String)
    (donor_id donor_hospital_id patient_id : String) (notes : Option String)
    (requestId notificationId : String) : SendResult × DB :=
  if donor_id == "" || donor_hospital_id == "" || patient_id == "" then
    (.badRequest "Missing required fields: donor_id, donor_hospital_id, patient_id", db)
  else
    match db.patients.find? (fun p =>
        p.patient_id == patient_id && p.hospital_id == fromHospitalId) with
    | none => (.notFound "Patient not found or doesn't belong to your hospital", db)
    | some patient =>
      let hospitalName := (db.hospitals.find? (fun h =>
        h.hospital_id == fromHospitalId)).map (fun h => h.name)
      let isSameHospital := fromHospitalId == donor_hospital_id
      let initialStatus := if isSameHospital then "accepted" else "pending"
      let newReq : OrganRequest :=
        { request_id := requestId
          from_hospital_id := fromHospitalId
          to_hospital_id := donor_hospital_id
          patient_id := patient_id
          donor_id := donor_id
          status := initialStatus
          notes := notes
          response_notes := if isSameHospital then
              some "Auto-accepted: Internal hospital match - donor and patient in same facility"
            else none
          created_at := nowMs
          updated_at := nowMs }
      let patientStatus := if isSameHospital then "Matched" else "In Progress"
      let patients := db.patients.map (fun p =>
        if p.patient_id == patient_id then
          { p with status := some patientStatus
                   status_updated_at := some nowMs
                   matched_donor_id := some donor_id
                   matched_hospital_id := some donor_hospital_id }
        else p)
      let donors := if isSameHospital then
          db.donors.map (fun d =>
            if d.donor_id == donor_id then
              { d with status := some "Matched"
                       status_updated_at := some nowMs
                       matched_patient_id := some patient_id }
            else d)
        else db.donors
      let notif : Notification := if isSameHospital then
          { notification_id := notificationId
            hospital_id := fromHospitalId
            type := "internal_match"
            title := "✅ Internal Match Confirmed"
            message := "Internal match successful! Patient " ++ patient.full_name ++
              " matched with available donor for " ++ patient.organ_needed ++
              ". Both are in your facility - please coordinate internally."
            related_id := requestId
            is_read := false }
        else
          { notification_id := notificationId
            hospital_id := donor_hospital_id
            type := "organ_request"
            title := "New Organ Request"
            message := jsOr hospitalName "A hospital" ++ " has requested a " ++
              patient.organ_needed ++ " for a " ++ jsLower patient.urgency_level ++
              " priority patient."
            related_id := requestId
            is_read := false }
      (.ok requestId isSameHospital isSameHospital patientStatus,
        { db with patients := patients
                  donors := donors
                  requests := db.requests ++ [newReq]
                  notifications := db.notifications ++ [notif] })

/-- `POST /respond` (the older respond route): updates only the request row and
the notifications — it never touches the patient or donor rows. -/
def respondLegacy (db : DB) (nowMs : Int) (hospital_id : String)
    (request_id response : String) (notes : Option String)
    (notificationId : String) : RespondResult × DB :=
  if request_id == "" || response == "" ||
      !(response == "accept" || response == "reject") then
    (.badRequest "Invalid request. Required: request_id, response (accept/reject)", db)
  else
    match db.requests.find? (fun r =>
        r.request_id == request_id && r.to_hospital_id == hospital_id) with
    | none => (.notFound "Request not found or not for your hospital", db)
    | some request =>
      match db.patients.find? (fun p => p.patient_id == request.patient_id),
            db.hospitals.find? (fun h => h.hospital_id == request.from_hospital_id) with
      | some patient, some _fromHospital =>
        let newStatus := if response == "accept" then "accepted" else "rejected"
        let requests := db.requests.map (fun r =>
          if r.request_id == request_id then
            { r with status := newStatus, response_notes := notes, updated_at := nowMs }
          else r)
        let title := if response == "accept" then "Request Accepted!" else "Request Declined"
        let message := if response == "accept" then
            "Your organ request for " ++ patient.full_name ++
              " has been accepted. Please coordinate next steps."
          else
            "Your organ request for " ++ patient.full_name ++ " has been declined." ++
              reasonSuffix notes
        let notif : Notification :=
          { notification_id := notificationId
            hospital_id := request.from_hospital_id
            type := "request_response"
            title := title
            message := message
            related_id := request_id
            is_read := false }
        let notifications := (db.notifications ++ [notif]).map (fun n =>
          if n.related_id == request_id && n.hospital_id == hospital_id then
            { n with is_read := true }
          else n)
        (.ok newStatus, { db with requests := requests, notifications := notifications })
      | _, _ => (.notFound "Request not found or not for your hospital", db)

/-- `POST /requests/:request_id/respond`: existence re-checks, then the request
update; on `accepted` the patient and donor become `Matched`, on `rejected` the
patient reverts to `Waiting` with cleared matched references and the donor rows
are untouched. No branch checks that the request is still `pending`. -/
def respondById (db : DB) (nowMs : Int) (hospitalId : String)
    (request_id status : String) (response_notes : Option String)
    (notificationId : String) : RespondResult × DB :=
  if jsTrim request_id == "" then
    (.badRequest "Request ID is required", db)
  else if !(status == "accepted" || status == "rejected") then
    (.badRequest "Status must be 'accepted' or 'rejected'", db)
  else
    match db.requests.find? (fun r => r.request_id == request_id) with
    | none => (.notFound "Request not found. It may have been deleted.", db)
    | some basicRequest =>
      match db.patients.find? (fun p => p.patient_id == basicRequest.patient_id) with
      | none => (.notFound "Patient no longer exists. Request cannot be processed.", db)
      | some _ =>
        match db.donors.find? (fun d => d.donor_id == basicRequest.donor_id) with
        | none => (.notFound "Donor no longer exists. Request cannot be processed.", db)
        | some _ =>
          match db.requests.find? (fun r =>
              r.request_id == request_id && r.to_hospital_id == hospitalId) with
          | none => (.notFound "Request not found or not for your hospital", db)
          | some request =>
            match db.patients.find? (fun p => p.patient_id == request.patient_id),
                  db.hospitals.find? (fun h => h.hospital_id == request.from_hospital_id) with
            | some patient, some _fromH =>
              let requests := db.requests.map (fun r =>
                if r.request_id == request_id then
                  { r with status := status, response_notes := response_notes
                           updated_at := nowMs }
                else r)
              let patients := if status == "accepted" then
                  db.patients.map (fun p =>
                    if p.patient_id == request.patient_id then
                      { p with status := some "Matched", status_updated_at := some nowMs }
                    else p)
                else
                  db.patients.map (fun p =>
                    if p.patient_id == request.patient_id then
                      { p with status := some "Waiting"
                               status_updated_at := some nowMs
                               matched_donor_id := none
                               matched_hospital_id := none }
                    else p)
              let donors := if status == "accepted" then
                  db.donors.map (fun d =>
                    if d.donor_id == request.donor_id then
                      { d with status := some "Matched"
                               status_updated_at := some nowMs
                               matched_patient_id := some request.patient_id
                               matched_hospital_id := some request.from_hospital_id }
                    else d)
                else db.donors
              let title := if status == "accepted" then "Request Accepted!" else "Request Declined"
              let message := if status == "accepted" then
                  "Your organ request for " ++ patient.full_name ++
                    " has been accepted. Please coordinate next steps."
                else
                  "Your organ request for " ++ patient.full_name ++ " has been declined." ++
                    reasonSuffix response_notes
              let notif : Notification :=
                { notification_id := notificationId
                  hospital_id := request.from_hospital_id
                  type := "request_response"
                  title := title
                  message := message
                  related_id := request_id
                  is_read := false }
              let notifications := (db.notifications ++ [notif]).map (fun n =>
                if n.related_id == request_id && n.hospital_id == hospitalId then
                  { n with is_read := true }
                else n)
              (.ok status,
                { db with requests := requests, patients := patients
                          donors := donors, notifications := notifications })
            | _, _ => (.notFound "Request not found or not for your hospital", db)

/-- `POST /complete-transplant`: requires a patient of the calling hospital in
`Matched` status; on success completes the patient, the donor and every request
pairing the two. -/
def completeTransplant (db : DB) (nowMs : Int) (hospital_id : String)
    (patient_id donor_id : String) (notes : Option String) : CompleteResult × DB :=
  if patient_id == "" || donor_id == "" then
    (.badRequest "Patient ID and Donor ID are required", db)
  else
    match db.patients.find? (fun p =>
        p.patient_id == patient_id && p.hospital_id == hospital_id &&
        p.status == some "Matched") with
    | none =>
      (.notFound "Patient not found, doesn't belong to your hospital, or not in Matched status", db)
    | some _ =>
      let patients := db.patients.map (fun p =>
        if p.patient_id == patient_id then
          { p with status := some "Completed", status_updated_at := some nowMs
                   completed_at := some nowMs }
        else p)
      let donors := db.donors.map (fun d =>
        if d.donor_id == donor_id then
          { d with status := some "Donated", status_updated_at := some nowMs
                   donated_at := some nowMs }
        else d)
      let requests := db.requests.map (fun r =>
        if r.patient_id == patient_id && r.donor_id == donor_id then
          { r with status := "completed"
                   response_notes := some (jsOr notes "Transplant completed successfully")
                   updated_at := nowMs }
        else r)
      (.ok, { db with patients := patients, donors := donors, requests := requests })

end Matching

namespace Matching

/-- The policy SELECT of `POST /enhanced-matches`: `active` status, not paused
for matching, newest first. The SELECT fetches only
`policy_id, title, description, policy_content, created_at`; in particular
`criteria_weights` is never part of a row, so the weight parse below always
falls back to the default tuple. -/
def activePolicies (db : DB) : List Policy :=
  sortDescBy (fun p => p.created_at)
    (db.policies.filter (fun p =>
      p.status == "active" &&
      (p.paused_for_matching == some false || p.paused_for_matching == none)))

/-- Organ matching of the `/enhanced-matches` policy loop: the patient's
(lowercased, trimmed) organ appears in the concatenated title, description
and content of the policy. -/
def policyOrganMatch (patientOrgan : String) (row : Policy) : Bool :=
  let textToSearch := jsLower (row.title ++ " " ++ row.description.getD "" ++ " " ++
    row.policy_content.getD "")
  patientOrgan != "" && jsIncludes textToSearch patientOrgan

/-- Accumulated state of the `/enhanced-matches` policy loop. -/
structure PolicyPassState where
  «matches» : List Blockchain.MatchScore
  policyApplied : Bool
  policyTitle : Option String
  policyCount : Nat
deriving Repr, DecidableEq

/-- Rescoring of one candidate with the default weight tuple
(blood 0.4, urgency 0.3, distance 0.2, time 0.1 — the `criteria_weights`
fallback, see `activePolicies`) and the policy note appended to the rationale
(`m.time_score || 100` guards a falsy time score). -/
def recomputeWithDefaultWeights (policyNote : String) (m : Blockchain.MatchScore) :
    Blockchain.MatchScore :=
  { m with
    match_score := jsRound10 (m.compatibility_score * 4 + m.urgency_bonus * 3 +
      m.distance_score * 2 + (if m.time_score == 0 then 100 else m.time_score))
    explanation := if m.explanation == "" then policyNote
      else m.explanation ++ "; " ++ policyNote }

/-- One iteration of the `/enhanced-matches` policy loop: every organ-matching
policy bumps the counter, but only the first one (while `policyApplied` is
still false) rescores and re-sorts the candidates. The rationale note is built
at that moment, when the counter necessarily reads 1. -/
def policyStep (patientOrgan : String) (s : PolicyPassState) (row : Policy) :
    PolicyPassState :=
  if policyOrganMatch patientOrgan row then
    let policyCount := s.policyCount + 1
    if s.policyApplied then { s with policyCount := policyCount }
    else
      let policyNote := "Policy: " ++ row.title ++
        (if policyCount > 1 then " (+" ++ Nat.repr (policyCount - 1) ++ " more)" else "")
      { «matches» := sortDescBy (fun m => (m.match_score : Int))
          (s.«matches».map (recomputeWithDefaultWeights policyNote))
        policyApplied := true
        policyTitle := some row.title
        policyCount := policyCount }
  else s

/-- The whole `/enhanced-matches` policy loop over the eligible policies in
creation-descending order. -/
def applyActivePolicies (patientOrgan : String) (policies : List Policy)
    (ms : List Blockchain.MatchScore) : PolicyPassState :=
  policies.foldl (policyStep patientOrgan) ⟨ms, false, none, 0⟩

/-- The policy pass as invoked by the route: eligible policies of the store,
organ taken from the patient row. -/
def enhancedMatchesPolicyPass (db : DB) (patient : Patient)
    (ms : List Blockchain.MatchScore) : PolicyPassState :=
  applyActivePolicies (jsTrim (jsLower patient.organ_needed)) (activePolicies db) ms

/-- First-match-wins description of the policy pass, for comparison with
`applyActivePolicies`: the first organ-matching policy (in the given order)
rescores every candidate with the default weight tuple and stamps
`Policy: <title>` on each rationale; the remaining organ-matching policies are
only tallied into `policyCount` and leave the candidates untouched. -/
def applyPoliciesFirstMatchSpec (patientOrgan : String) (policies : List Policy)
    (ms : List Blockchain.MatchScore) : PolicyPassState :=
  match policies.find? (policyOrganMatch patientOrgan) with
  | none => ⟨ms, false, none, 0⟩
  | some p =>
    ⟨sortDescBy (fun m => (m.match_score : Int))
        (ms.map (recomputeWithDefaultWeights ("Policy: " ++ p.title))),
      true, some p.title, policies.countP (policyOrganMatch patientOrgan)⟩

end Matching

/-! ## Claims -/

/-- Monotonicity of the enhanced-path wait-time tier table. -/
theorem timeTier_mono_blockchain {d1 d2 : Int} (h : d1 ≤ d2) :
    Blockchain.timeTier d1 ≤ Blockchain.timeTier d2 := by
  unfold Blockchain.timeTier
  split_ifs <;> omega

/-- Claim C6 (amended): the wait-time sub-score of the enhanced matching path
(`calculateTimeScore` of `blockchain.ts`) is a monotonic non-decreasing step
function of the elapsed time since registration, with the under-a-week tier
(40) lowest and the over-a-year tier (100) highest. (The claim as stated is
refuted for the other matching path by
`c6_counterexample_ai_time_score_decreases`: the `AIMatchingService` scorer
decreases with elapsed time.) -/
theorem c6_enhanced_time_score_monotone (now1 reg1 now2 reg2 : Int)
    (h : now1 - reg1 ≤ now2 - reg2) :
    Blockchain.calculateTimeScore now1 reg1 ≤ Blockchain.calculateTimeScore now2 reg2 := by
  unfold Blockchain.calculateTimeScore
  apply timeTier_mono_blockchain
  rw [Int.fdiv_eq_ediv _ (by norm_num), Int.fdiv_eq_ediv _ (by norm_num)]
  exact Int.ediv_le_ediv (by norm_num) h

/-- Witness for C6: zero elapsed time (score 40) against 400 elapsed days
(score 100). -/
theorem c6_enhanced_time_score_monotone_witness :
    ((0 : Int) - 0 ≤ 34560000000 - 0) ∧
    Blockchain.calculateTimeScore 0 0 ≤ Blockchain.calculateTimeScore 34560000000 0 :=
  ⟨by decide, c6_enhanced_time_score_monotone 0 0 34560000000 0 (by decide)⟩

/-- Counterexample for C6 as stated ("this holds for the time scorer of every
matching path"): on the `AIMatchingService` path, 0 elapsed days scores 100 and
400 elapsed days scores 20, so the score strictly decreases along t1 ≤ t2. -/
theorem c6_counterexample_ai_time_score_decreases :
    ((0 : Int) - 0 ≤ 34560000000 - 0) ∧
    AIMatchingService.calculateTimeScore 0 0 = 100 ∧
    AIMatchingService.calculateTimeScore 34560000000 0 = 20 := by
  decide

/-- Claim C7 (code bug evidence): O+ is not a valid ABO/Rh donor for an O−
recipient — the donor-keyed matrix of `aiMatching.ts` (the textbook donation
table) excludes it and `calculateCompatibilityScore` correctly yields 0 — yet
`calculateBloodCompatibility` of `blockchain.ts` scores this incompatible pair
95 instead of the 0 the claim requires. -/
theorem c7_incompatible_pair_scored_nonzero_on_enhanced_path :
    (AIMatchingService.bloodCompatibility "O+").contains "O-" = false ∧
    AIMatchingService.calculateCompatibilityScore "O-" "O+" = 0 ∧
    Blockchain.calculateBloodCompatibility "O-" "O+" = 95 := by
  decide

/-! ## Concrete store fixtures for witnesses and counterexamples -/

/-- Origin hospital fixture (Mumbai). -/
def hospitalH1 : Hospital :=
  { hospital_id := "H1", name := "City Hospital Mumbai"
    city := some "Mumbai", state := some "MH", country := some "India" }

/-- Same-state hospital fixture (Pune). -/
def hospitalH2 : Hospital :=
  { hospital_id := "H2", name := "Lakeside Hospital Pune"
    city := some "Pune", state := some "MH", country := some "India" }

/-- Different-country hospital fixture (Berlin). -/
def hospitalH3 : Hospital :=
  { hospital_id := "H3", name := "Berlin Transplant Center"
    city := some "Berlin", state := some "BE", country := some "Germany" }

/-- A waiting A+ kidney recipient at H1. -/
def patientP1 : Patient :=
  { patient_id := "P1", hospital_id := "H1", full_name := "Asha Rao"
    organ_needed := "kidney", blood_type := "A+", urgency_level := "High"
    age := 34, gender := "F", registration_date := 0, status := some "Waiting"
    matched_donor_id := none, matched_hospital_id := none
    status_updated_at := none, completed_at := none }

/-- An available A+ kidney donor at H1 (same hospital as `patientP1`). -/
def donorD1 : Donor :=
  { donor_id := "D1", hospital_id := "H1", full_name := "Mohan Iyer"
    blood_type := "A+", organs_to_donate := ["kidney"], age := 30, gender := "M"
    is_active := true, registration_date := 0, created_at := 0
    status := some "Available", matched_patient_id := none
    matched_hospital_id := none, status_updated_at := none, donated_at := none }

/-- Store for the send-request and complete-transplant witnesses. -/
def dbSend : DB :=
  { hospitals := [hospitalH1], patients := [patientP1], donors := [donorD1]
    requests := [], notifications := [], policies := [] }

/-- A recipient already matched (as a first accept response left it). -/
def patientMatched : Patient :=
  { patient_id := "P2", hospital_id := "H1", full_name := "Kiran Shah"
    organ_needed := "kidney", blood_type := "A+", urgency_level := "High"
    age := 45, gender := "M", registration_date := 0, status := some "Matched"
    matched_donor_id := some "D2", matched_hospital_id := some "H2"
    status_updated_at := some 1, completed_at := none }

/-- The donor matched by that first accept response. -/
def donorMatched : Donor :=
  { donor_id := "D2", hospital_id := "H2", full_name := "Leela Nair"
    blood_type := "A+", organs_to_donate := ["kidney"], age := 38, gender := "F"
    is_active := true, registration_date := 0, created_at := 0
    status := some "Matched", matched_patient_id := some "P2"
    matched_hospital_id := some "H1", status_updated_at := some 1, donated_at := none }

/-- The allocation request already resolved by a first accept response. -/
def requestAccepted : OrganRequest :=
  { request_id := "R1", from_hospital_id := "H1", to_hospital_id := "H2"
    patient_id := "P2", donor_id := "D2", status := "accepted"
    notes := none, response_notes := some "Accepted by our board"
    created_at := 0, updated_at := 1 }

/-- Store in the state the first accept response left it. -/
def dbC1 : DB :=
  { hospitals := [hospitalH1, hospitalH2], patients := [patientMatched]
    donors := [donorMatched], requests := [requestAccepted]
    notifications := [], policies := [] }

/-- A recipient with a pending outgoing external request. -/
def patientInProgress : Patient :=
  { patient_id := "P3", hospital_id := "H1", full_name := "Divya Kumar"
    organ_needed := "liver", blood_type := "B+", urgency_level := "Medium"
    age := 29, gender := "F", registration_date := 0, status := some "In Progress"
    matched_donor_id := some "D3", matched_hospital_id := some "H2"
    status_updated_at := some 1, completed_at := none }

/-- The available donor referenced by that pending request. -/
def donorD3 : Donor :=
  { donor_id := "D3", hospital_id := "H2", full_name := "Vikram Joshi"
    blood_type := "B+", organs_to_donate := ["liver"], age := 33, gender := "M"
    is_active := true, registration_date := 0, created_at := 0
    status := some "Available", matched_patient_id := none
    matched_hospital_id := none, status_updated_at := none, donated_at := none }

/-- A pending external allocation request H1 → H2. -/
def requestPending : OrganRequest :=
  { request_id := "R3", from_hospital_id := "H1", to_hospital_id := "H2"
    patient_id := "P3", donor_id := "D3", status := "pending"
    notes := some "Urgent case", response_notes := none
    created_at := 0, updated_at := 0 }

/-- Store with one pending external request. -/
def dbC3 : DB :=
  { hospitals := [hospitalH1, hospitalH2], patients := [patientInProgress]
    donors := [donorD3], requests := [requestPending]
    notifications := [], policies := [] }

/-- An available AB+ kidney donor at H2 — not a valid ABO donor for an A+
recipient, yet selected by the inverted donor query of `findMatches`. -/
def donorABplus : Donor :=
  { donor_id := "D5", hospital_id := "H2", full_name := "Nisha Patel"
    blood_type := "AB+", organs_to_donate := ["kidney"], age := 40, gender := "F"
    is_active := true, registration_date := 0, created_at := 0
    status := some "Available", matched_patient_id := none
    matched_hospital_id := none, status_updated_at := none, donated_at := none }

/-- Store for the candidate-finder direction bug. -/
def dbC5 : DB :=
  { hospitals := [hospitalH1, hospitalH2], patients := [patientP1]
    donors := [donorABplus], requests := [], notifications := [], policies := [] }

/-- The criteria `findMatches` receives for `patientP1`. -/
def criteriaC5 : AIMatchingService.MatchingCriteria :=
  { organ_type := "kidney", blood_type := "A+", urgency_level := "High"
    hospital_id := "H1", patient_id := "P1" }

/-- A low-urgency A+ kidney recipient at H1. -/
def patientLowUrgency : Patient :=
  { patient_id := "P8", hospital_id := "H1", full_name := "Sanjay Gupta"
    organ_needed := "kidney", blood_type := "A+", urgency_level := "Low"
    age := 50, gender := "M", registration_date := 0, status := some "Waiting"
    matched_donor_id := none, matched_hospital_id := none
    status_updated_at := none, completed_at := none }

/-- An AB+ kidney donor in a different country, registered 200 days ago. -/
def donorFar : Donor :=
  { donor_id := "D8", hospital_id := "H3", full_name := "Greta Braun"
    blood_type := "AB+", organs_to_donate := ["kidney"], age := 45, gender := "F"
    is_active := true, registration_date := 0, created_at := 0
    status := some "Available", matched_patient_id := none
    matched_hospital_id := none, status_updated_at := none, donated_at := none }

/-- Store where `findMatches` produces a candidate far below the viability
threshold. -/
def dbC8 : DB :=
  { hospitals := [hospitalH1, hospitalH3], patients := [patientLowUrgency]
    donors := [donorFar], requests := [], notifications := [], policies := [] }

/-- The criteria `findMatches` receives for `patientLowUrgency`. -/
def criteriaC8 : AIMatchingService.MatchingCriteria :=
  { organ_type := "kidney", blood_type := "A+", urgency_level := "Low"
    hospital_id := "H1", patient_id := "P8" }

/-- A waiting O+ kidney recipient at H1, registered 400 days before `nowMs`. -/
def patientE : Patient :=
  { patient_id := "P10", hospital_id := "H1", full_name := "Ravi Menon"
    organ_needed := "kidney", blood_type := "O+", urgency_level := "High"
    age := 30, gender := "M", registration_date := 0, status := some "Waiting"
    matched_donor_id := none, matched_hospital_id := none
    status_updated_at := none, completed_at := none }

/-- An available O+ donor at H2 offering "kidneys" (exercises the plural
normalization). -/
def donorE : Donor :=
  { donor_id := "D10", hospital_id := "H2", full_name := "Suresh Pillai"
    blood_type := "O+", organs_to_donate := ["kidneys"], age := 28, gender := "M"
    is_active := true, registration_date := 0, created_at := 0
    status := some "Available", matched_patient_id := none
    matched_hospital_id := none, status_updated_at := none, donated_at := none }

/-- Store for the enhanced-matching witnesses. -/
def dbE : DB :=
  { hospitals := [hospitalH1, hospitalH2], patients := [patientE]
    donors := [donorE], requests := [], notifications := [], policies := [] }

/-- The enhanced match list computed on `dbE` 400 days after registration. -/
def msE : List Blockchain.MatchScore :=
  (Blockchain.findEnhancedMatches dbE 34560000000 "P10").getD []

/-- The newer of two active kidney policies. -/
def policyKidneyA : Policy :=
  { policy_id := "POL2", title := "Kidney Transport Priority"
    description := some "Prioritize geographically closer kidney donors"
    policy_content := some "Kidney allocations should favor local donors"
    status := "active", votes_for := 5, votes_against := 1, total_votes := 6
    is_withdrawn := none, is_suspended := none, paused_for_matching := none
    created_at := 200 }

/-- The older of two active kidney policies. -/
def policyKidneyB : Policy :=
  { policy_id := "POL1", title := "Kidney Fairness Rule"
    description := some "Equity in kidney allocation"
    policy_content := some "All kidney requests are ranked uniformly"
    status := "active", votes_for := 4, votes_against := 2, total_votes := 6
    is_withdrawn := none, is_suspended := none, paused_for_matching := none
    created_at := 100 }

/-- An already-scored enhanced candidate entering the policy pass. -/
def matchM0 : Blockchain.MatchScore :=
  { donor_id := "D10", donor_name := "Suresh Pillai", blood_type := "O+"
    organs_available := ["kidney"], hospital_id := "H2"
    hospital_name := "Lakeside Hospital Pune", match_score := 91
    compatibility_score := 100, urgency_bonus := 80, distance_score := 75
    age_compatibility := 100, medical_risk_score := 100, time_score := 100
    explanation := "Blood: 100% | Distance: Regional (75%)" }

/-- Claim C1 (code bug evidence): on a request that a first response already
set to `accepted` (recipient and donor `Matched`), a second
`respondToRequest` call with decision reject does not fail with any conflict
error — it succeeds, flips the request to `rejected`, reverts the recipient to
`Waiting` with cleared references, and leaves the donor still `Matched`,
re-applying response effects and producing an inconsistent pairing. No branch
of either respond route checks `status = pending`. -/
theorem c1_second_respond_overwrites_first :
    (Matching.respondById dbC1 5 "H2" "R1" "rejected" (some "second response") "N9").1 =
      Matching.RespondResult.ok "rejected" ∧
    ((Matching.respondById dbC1 5 "H2" "R1" "rejected" (some "second response") "N9").2.requests.map
      (fun r => r.status)) = ["rejected"] ∧
    ((Matching.respondById dbC1 5 "H2" "R1" "rejected" (some "second response") "N9").2.patients.map
      (fun p => (p.status, p.matched_donor_id, p.matched_hospital_id))) =
      [(some "Waiting", none, none)] ∧
    ((Matching.respondById dbC1 5 "H2" "R1" "rejected" (some "second response") "N9").2.donors.map
      (fun d => d.status)) = [some "Matched"] := by
  decide

/-- Claim C2: when the originating hospital equals the target hospital,
`sendRequest` creates the request with status `accepted` and reports
`auto_accepted = true`, and in the same call sets every row of the recipient to
`Matched` with its matched-donor and matched-hospital references and every row
of the donor to `Matched` with its matched-recipient reference — no
`respondToRequest` call involved. -/
theorem c2_internal_match_auto_accepts (db : DB) (now : Int)
    (hid did pid : String) (notes : Option String) (reqId nid : String)
    (patient : Patient)
    (hdid : (did == "") = false) (hhid : (hid == "") = false) (hpid : (pid == "") = false)
    (hfind : db.patients.find? (fun p =>
      p.patient_id == pid && p.hospital_id == hid) = some patient)
    (hfresh : db.requests.all (fun r => !(r.request_id == reqId)) = true) :
    (Matching.sendRequest db now hid did hid pid notes reqId nid).1 =
      Matching.SendResult.ok reqId true true "Matched" ∧
    ((Matching.sendRequest db now hid did hid pid notes reqId nid).2.requests.all
      (fun r => !(r.request_id == reqId) || (r.status == "accepted"))) = true ∧
    ((Matching.sendRequest db now hid did hid pid notes reqId nid).2.patients.all
      (fun p => !(p.patient_id == pid) ||
        (p.status == some "Matched" && p.matched_donor_id == some did &&
         p.matched_hospital_id == some hid))) = true ∧
    ((Matching.sendRequest db now hid did hid pid notes reqId nid).2.donors.all
      (fun d => !(d.donor_id == did) ||
        (d.status == some "Matched" && d.matched_patient_id == some pid))) = true := by
  unfold Matching.sendRequest
  simp only [hdid, hhid, hpid, Bool.or_self, Bool.or_false, Bool.false_or, hfind,
    beq_self_eq_true, if_true, Bool.false_eq_true, if_false, ite_true, ite_false]
  refine ⟨trivial, ?_, ?_, ?_⟩
  · rw [List.all_append, Bool.and_eq_true]
    constructor
    · rw [List.all_eq_true]
      intro r hr
      have := List.all_eq_true.mp hfresh r hr
      simp [this]
    · simp
  · rw [List.all_eq_true]
    intro p hp
    rcases List.mem_map.mp hp with ⟨q, hq, rfl⟩
    by_cases hq' : (q.patient_id == pid) = true
    · simp [hq']
    · simp [hq']
  · rw [List.all_eq_true]
    intro d hd
    rcases List.mem_map.mp hd with ⟨q, hq, rfl⟩
    by_cases hq' : (q.donor_id == did) = true
    · simp [hq']
    · simp [hq']

/-- Witness for C2: a same-hospital send-request on the concrete store. -/
theorem c2_internal_match_auto_accepts_witness :
    (dbSend.patients.find? (fun p =>
      p.patient_id == "P1" && p.hospital_id == "H1") = some patientP1) ∧
    ((Matching.sendRequest dbSend 3 "H1" "D1" "H1" "P1" none "REQ1" "N1").1 =
        Matching.SendResult.ok "REQ1" true true "Matched" ∧
      ((Matching.sendRequest dbSend 3 "H1" "D1" "H1" "P1" none "REQ1" "N1").2.requests.all
        (fun r => !(r.request_id == "REQ1") || (r.status == "accepted"))) = true ∧
      ((Matching.sendRequest dbSend 3 "H1" "D1" "H1" "P1" none "REQ1" "N1").2.patients.all
        (fun p => !(p.patient_id == "P1") ||
          (p.status == some "Matched" && p.matched_donor_id == some "D1" &&
           p.matched_hospital_id == some "H1"))) = true ∧
      ((Matching.sendRequest dbSend 3 "H1" "D1" "H1" "P1" none "REQ1" "N1").2.donors.all
        (fun d => !(d.donor_id == "D1") ||
          (d.status == some "Matched" && d.matched_patient_id == some "P1"))) = true) :=
  ⟨by decide, c2_internal_match_auto_accepts dbSend 3 "H1" "D1" "P1" none "REQ1" "N1"
    patientP1 (by decide) (by decide) (by decide) (by decide) (by decide)⟩

/-- Counterexample for C3 as stated ("this holds on every code path that
processes a reject response"): a reject through the older `/respond` route
succeeds but leaves the recipient exactly as it was — still `In Progress` with
its matched references set — because that route updates only the request and
the notifications. -/
theorem c3_counterexample_legacy_reject_leaves_recipient :
    (Matching.respondLegacy dbC3 7 "H2" "R3" "reject" none "N7").1 =
      Matching.RespondResult.ok "rejected" ∧
    (Matching.respondLegacy dbC3 7 "H2" "R3" "reject" none "N7").2.patients =
      dbC3.patients ∧
    (Matching.respondLegacy dbC3 7 "H2" "R3" "reject" none "N7").2.donors = dbC3.donors ∧
    ((Matching.respondLegacy dbC3 7 "H2" "R3" "reject" none "N7").2.patients.map
      (fun p => (p.status, p.matched_donor_id))) =
      [(some "In Progress", some "D3")] ∧
    ((Matching.respondLegacy dbC3 7 "H2" "R3" "reject" none "N7").2.requests.map
      (fun r => r.status)) = ["rejected"] := by
  decide

/-- Claim C3 (amended): on the `/requests/:request_id/respond` route, a reject
response reverts every row of the request's recipient to `Waiting` with its
matched-donor and matched-hospital references cleared, and leaves the donor
table entirely unchanged. (On the older `/respond` route, refuted by
`c3_counterexample_legacy_reject_leaves_recipient`, a reject leaves both
recipient and donor unchanged.) -/
theorem c3_reject_reverts_recipient_main_path (db : DB) (now : Int)
    (hid rid : String) (notes : Option String) (nid : String)
    (breq req : OrganRequest) (pat0 : Patient) (don0 : Donor)
    (pat1 : Patient) (fromH : Hospital)
    (h0 : (jsTrim rid == "") = false)
    (h1 : db.requests.find? (fun r => r.request_id == rid) = some breq)
    (h2 : db.patients.find? (fun p => p.patient_id == breq.patient_id) = some pat0)
    (h3 : db.donors.find? (fun d => d.donor_id == breq.donor_id) = some don0)
    (h4 : db.requests.find? (fun r =>
      r.request_id == rid && r.to_hospital_id == hid) = some req)
    (h5 : db.patients.find? (fun p => p.patient_id == req.patient_id) = some pat1)
    (h6 : db.hospitals.find? (fun h => h.hospital_id == req.from_hospital_id) = some fromH) :
    (Matching.respondById db now hid rid "rejected" notes nid).1 =
      Matching.RespondResult.ok "rejected" ∧
    (Matching.respondById db now hid rid "rejected" notes nid).2.donors = db.donors ∧
    ((Matching.respondById db now hid rid "rejected" notes nid).2.patients.all
      (fun p => !(p.patient_id == req.patient_id) ||
        (p.status == some "Waiting" && p.matched_donor_id == none &&
         p.matched_hospital_id == none))) = true := by
  unfold Matching.respondById
  simp only [h0, h1, h2, h3, h4, h5, h6, Bool.false_eq_true, if_false, ite_false]
  refine ⟨by trivial, by trivial, ?_⟩
  rw [List.all_eq_true]
  intro p hp
  rcases List.mem_map.mp hp with ⟨q, hq, rfl⟩
  by_cases hq' : (q.patient_id == req.patient_id) = true
  · simp [hq']
  · simp [hq']

/-- Witness for C3 (amended): a reject on the pending request of the concrete
store through the `/requests/:request_id/respond` route. -/
theorem c3_reject_reverts_recipient_main_path_witness :
    (dbC3.requests.find? (fun r =>
      r.request_id == "R3" && r.to_hospital_id == "H2") = some requestPending) ∧
    ((Matching.respondById dbC3 11 "H2" "R3" "rejected" (some "no capacity") "N8").1 =
        Matching.RespondResult.ok "rejected" ∧
      (Matching.respondById dbC3 11 "H2" "R3" "rejected" (some "no capacity") "N8").2.donors =
        dbC3.donors ∧
      ((Matching.respondById dbC3 11 "H2" "R3" "rejected" (some "no capacity") "N8").2.patients.all
        (fun p => !(p.patient_id == requestPending.patient_id) ||
          (p.status == some "Waiting" && p.matched_donor_id == none &&
           p.matched_hospital_id == none))) = true) :=
  ⟨by decide, c3_reject_reverts_recipient_main_path dbC3 11 "H2" "R3" (some "no capacity") "N8"
    requestPending requestPending patientInProgress donorD3 patientInProgress hospitalH1
    (by decide) (by decide) (by decide) (by decide) (by decide) (by decide) (by decide)⟩

/-- Claim C4: when no row of the patients table is a `Matched` patient of the
calling hospital under the given id, `completeTransplant` answers with an error
and leaves the whole store — patients, donors and requests — untouched. -/
theorem c4_complete_transplant_requires_matched (db : DB) (now : Int)
    (hid pid did : String) (notes : Option String)
    (h : db.patients.all (fun p =>
      !(p.patient_id == pid && p.hospital_id == hid && p.status == some "Matched")) = true) :
    (Matching.completeTransplant db now hid pid did notes).1 ≠ Matching.CompleteResult.ok ∧
    (Matching.completeTransplant db now hid pid did notes).2 = db := by
  have hfind : db.patients.find? (fun p =>
      p.patient_id == pid && p.hospital_id == hid && p.status == some "Matched") = none := by
    rw [List.find?_eq_none]
    intro x hx
    have hx' := List.all_eq_true.mp h x hx
    simp only [Bool.not_eq_true'] at hx'
    simp [hx']
  unfold Matching.completeTransplant
  by_cases hv : (pid == "" || did == "") = true
  · simp [hv]
  · simp [hv, hfind]

/-- Witness for C4: the concrete store holds `patientP1` in `Waiting`, so the
completion call fails and the store is returned unchanged. -/
theorem c4_complete_transplant_requires_matched_witness :
    (dbSend.patients.all (fun p =>
      !(p.patient_id == "P1" && p.hospital_id == "H1" && p.status == some "Matched")) = true) ∧
    ((Matching.completeTransplant dbSend 9 "H1" "P1" "D1" none).1 ≠
        Matching.CompleteResult.ok ∧
      (Matching.completeTransplant dbSend 9 "H1" "P1" "D1" none).2 = dbSend) :=
  ⟨by decide, c4_complete_transplant_requires_matched dbSend 9 "H1" "P1" "D1" none (by decide)⟩

/-- Claim C5 (code bug evidence): the donor query of `findMatches` filters
donor blood types by `bloodCompatibility[criteria.blood_type]`, the row of
recipients the **patient's** type could donate to, instead of the set of types
that can donate to the patient. On the concrete store, the AB+ donor is
returned as the only candidate for the A+ recipient even though AB+ is not a
valid donor type for A+ — and the service's own scorer gives the returned
candidate a blood-compatibility sub-score of 0. -/
theorem c5_candidate_finder_returns_incompatible_donor :
    ((AIMatchingService.findMatches dbC5 0 criteriaC5).total_matches = 1) ∧
    ((AIMatchingService.findMatches dbC5 0 criteriaC5).«matches».map
      (fun m => (m.donor_id, m.compatibility_score)) = [("D5", 0)]) ∧
    (AIMatchingService.bloodCompatibility "AB+").contains "A+" = false := by
  decide

/-- Counterexample for C8 as stated (the threshold "holds for findMatches and
findEnhancedMatches"): `findMatches` applies no viability threshold at all —
on the concrete store it returns a candidate whose scaled score 155 means a
composite score of 15.5, far below 40. -/
theorem c8_counterexample_find_matches_below_threshold :
    ((AIMatchingService.findMatches dbC8 17280000000 criteriaC8).«matches».map
      (fun m => (m.donor_id, m.match_score10))) = [("D8", 155)] ∧
    (155 : Nat) ≤ 400 := by
  decide

/-- Claim C8 (amended): every candidate in the ranked list returned by
`findEnhancedMatches` has a composite match score strictly greater than 40;
candidates at or below the threshold are excluded. (`findMatches` applies no
threshold, refuted by `c8_counterexample_find_matches_below_threshold`.) -/
theorem c8_enhanced_matches_above_threshold (db : DB) (now : Int) (pid : String)
    (ms : List Blockchain.MatchScore)
    (h : Blockchain.findEnhancedMatches db now pid = some ms) :
    ms.all (fun m => decide (40 < m.match_score)) = true := by
  unfold Blockchain.findEnhancedMatches at h
  cases hfp : db.patients.find? (fun p =>
      p.patient_id == pid && Blockchain.statusActiveOk p.status) with
  | none => simp only [hfp] at h; cases h
  | some p =>
    simp only [hfp] at h
    cases hfh : db.hospitals.find? (fun h => h.hospital_id == p.hospital_id) with
    | none => simp only [hfh] at h; cases h
    | some ph =>
      simp only [hfh, Option.some.injEq] at h
      subst h
      rw [List.all_eq_true]
      intro m hm
      have hm1 := List.mem_of_mem_take hm
      have hm2 := mem_of_mem_sortDescBy hm1
      exact (List.mem_filter.mp hm2).2

/-- Witness for C8 (amended): the single candidate of the concrete store
passes the threshold check. -/
theorem c8_enhanced_matches_above_threshold_witness :
    (Blockchain.findEnhancedMatches dbE 34560000000 "P10" = some msE) ∧
    msE.all (fun m => decide (40 < m.match_score)) = true :=
  ⟨by rfl, c8_enhanced_matches_above_threshold dbE 34560000000 "P10" msE (by rfl)⟩

/-- Once a policy has been applied, the remaining policy-loop iterations only
tally further organ matches into the counter. -/
theorem foldl_policyStep_applied (organ : String) (ps : List Policy)
    (s : Matching.PolicyPassState) (h : s.policyApplied = true) :
    ps.foldl (Matching.policyStep organ) s =
      { s with policyCount := s.policyCount + ps.countP (Matching.policyOrganMatch organ) } := by
  induction ps generalizing s with
  | nil => simp
  | cons p ps ih =>
    simp only [List.foldl_cons]
    by_cases hm : Matching.policyOrganMatch organ p = true
    · rw [show Matching.policyStep organ s p = { s with policyCount := s.policyCount + 1 } from
        by simp [Matching.policyStep, hm, h]]
      rw [ih _ (by simp [h])]
      rw [show (p :: ps).countP (Matching.policyOrganMatch organ) =
          ps.countP (Matching.policyOrganMatch organ) + 1 from by
        simp [List.countP_cons, hm]]
      congr 1
      simp only []
      omega
    · rw [show Matching.policyStep organ s p = s from
        by simp [Matching.policyStep, hm]]
      rw [ih _ h]
      congr 1
      simp [List.countP_cons, hm]

/-- Claim C9 (amended): the `/enhanced-matches` policy pass equals its
first-match-wins description — the first eligible policy (in
creation-descending order) whose text references the recipient's organ
rescores every candidate with the default weight tuple (the `criteria_weights`
fallback always fires because the policy query never selects that column) and
appends only `Policy: <its title>` to each rationale; the remaining matching
policies are tallied into `policyCount` but change neither weights, scores,
nor rationales. (The claim's assertion that additional policies are counted
and named in the rationale string is refuted by
`c9_counterexample_extra_policies_not_in_rationale`.) -/
theorem c9_first_matching_policy_wins (organ : String) (ps : List Policy)
    (ms : List Blockchain.MatchScore) :
    Matching.applyActivePolicies organ ps ms =
      Matching.applyPoliciesFirstMatchSpec organ ps ms := by
  induction ps with
  | nil => rfl
  | cons p ps ih =>
    by_cases hm : Matching.policyOrganMatch organ p = true
    · unfold Matching.applyActivePolicies
      simp only [List.foldl_cons]
      rw [show Matching.policyStep organ ⟨ms, false, none, 0⟩ p =
          ⟨sortDescBy (fun m => (m.match_score : Int))
            (ms.map (Matching.recomputeWithDefaultWeights ("Policy: " ++ p.title))),
           true, some p.title, 1⟩ from by
        simp [Matching.policyStep, hm]]
      rw [foldl_policyStep_applied _ _ _ rfl]
      unfold Matching.applyPoliciesFirstMatchSpec
      rw [List.find?_cons_of_pos _ hm]
      rw [show (p :: ps).countP (Matching.policyOrganMatch organ) =
          ps.countP (Matching.policyOrganMatch organ) + 1 from by
        simp [List.countP_cons, hm]]
      congr 1
      simp only []
      omega
    · unfold Matching.applyActivePolicies
      simp only [List.foldl_cons]
      rw [show Matching.policyStep organ ⟨ms, false, none, 0⟩ p = ⟨ms, false, none, 0⟩ from
        by simp [Matching.policyStep, hm]]
      rw [show (List.foldl (Matching.policyStep organ) ⟨ms, false, none, 0⟩ ps :
          Matching.PolicyPassState) = Matching.applyActivePolicies organ ps ms from rfl]
      rw [ih]
      unfold Matching.applyPoliciesFirstMatchSpec
      rw [List.find?_cons_of_neg _ (by simp [hm])]
      rw [show (p :: ps).countP (Matching.policyOrganMatch organ) =
          ps.countP (Matching.policyOrganMatch organ) from by
        simp [List.countP_cons, hm]]

/-- Counterexample for C9 as stated ("additional matching policies ... are
counted and named in each candidate's rationale string"): with two active
kidney policies and one candidate, both policies are organ matches
(`policyCount = 2`) and the newer one is applied, but the candidate's rationale
names neither the second policy nor any count — the `(+N more)` suffix is
built while the counter still reads 1, so it never appears. -/
theorem c9_counterexample_extra_policies_not_in_rationale :
    (Matching.applyActivePolicies "kidney" [policyKidneyA, policyKidneyB] [matchM0]).policyCount = 2 ∧
    (Matching.applyActivePolicies "kidney" [policyKidneyA, policyKidneyB] [matchM0]).policyTitle =
      some "Kidney Transport Priority" ∧
    ((Matching.applyActivePolicies "kidney" [policyKidneyA, policyKidneyB] [matchM0]).«matches».all
      (fun m => !(jsIncludes m.explanation "more") &&
                !(jsIncludes m.explanation "Kidney Fairness Rule"))) = true := by
  decide

/-- Claim C10: `findEnhancedMatches` returns at most 10 candidates — the
result list is the 10-truncation of the sorted, threshold-filtered scores. -/
theorem c10_enhanced_matches_at_most_ten (db : DB) (now : Int) (pid : String)
    (ms : List Blockchain.MatchScore)
    (h : Blockchain.findEnhancedMatches db now pid = some ms) :
    ms.length ≤ 10 := by
  unfold Blockchain.findEnhancedMatches at h
  cases hfp : db.patients.find? (fun p =>
      p.patient_id == pid && Blockchain.statusActiveOk p.status) with
  | none => simp only [hfp] at h; cases h
  | some p =>
    simp only [hfp] at h
    cases hfh : db.hospitals.find? (fun h => h.hospital_id == p.hospital_id) with
    | none => simp only [hfh] at h; cases h
    | some ph =>
      simp only [hfh, Option.some.injEq] at h
      subst h
      exact List.length_take_le 10 _

/-- Witness for C10: the concrete store's enhanced match list has length at
most ten. -/
theorem c10_enhanced_matches_at_most_ten_witness :
    (Blockchain.findEnhancedMatches dbE 34560000000 "P10" = some msE) ∧
    msE.length ≤ 10 :=
  ⟨by rfl, c10_enhanced_matches_at_most_ten dbE 34560000000 "P10" msE (by rfl)⟩
